import Mathlib

/-!
Formal model of the core validation engine of the Odisha flood-report
validation system, shallowly embedded from the Python sources:

* `src/validation/layer1_physical.py`   (PhysicalValidator)
* `src/preprocessing/feature_extractor.py` (FeatureExtractor fallback path)
* `src/validation/layer3_reputation.py` (ReputationSystem)
* `src/validation/layer2_statistical.py` (StatisticalValidator)
* `src/ml/models/dbscan_clustering.py`  (SpatialClusterAnalyzer)
* `src/ml/models/weight_network.py`     (WeightLearningNetwork)
* `src/api/schemas.py`                  (request-bound checks)
* `src/validation/validator.py`         (FloodReportValidator.validate_report)

Pure rule-based arithmetic is modelled over `ℚ`; the neural aggregator,
which uses the transcendental `exp`, is modelled over `ℝ`.  Distance and
z-score comparisons of the form `sqrt e < c` are embedded in the
mathematically equivalent squared form `e < c^2` to stay inside `ℚ`.
-/

/-- Embedding of Python's `round(x, 3)`: round to the nearest multiple of
`1/1000`.  We use round-half-up (`round`), Python uses round-half-even;
the two differ only at exact ties `k + 1/2` thousandths, which do not
occur in any concrete value appearing in this development. -/
def round3 (q : ℚ) : ℚ := (round (1000 * q) : ℤ) / 1000

/-- Embedding of `max(0.0, min(1.0, x))` as used to clip scores. -/
def clip01 (q : ℚ) : ℚ := max 0 (min 1 q)

/-! ## Layer 1 — physical plausibility (`layer1_physical.py`) -/

/-- Feature record produced by `FeatureExtractor.extract_all_features`. -/
structure Features where
  elevation : ℚ
  hand : ℚ
  slope : ℚ
  nbMean : ℚ
  nbStd : ℚ
  elevationDiffFromNeighbors : ℚ
deriving DecidableEq, Repr

/-- HAND sub-score (`layer1_physical.py` lines 33-44). -/
def handScore (hand : ℚ) : ℚ :=
  if hand > 10 then 1/10
  else if hand > 5 then 2/5
  else if hand < 1 then 1
  else 1 - (15/100) * (hand - 1)

/-- Slope sub-score (`layer1_physical.py` lines 48-56). -/
def slopeScore (slope : ℚ) : ℚ :=
  if slope > 30 then 0
  else if slope > 15 then 3/10
  else 1 - (46/1000) * slope

/-- Local-elevation sub-score (`layer1_physical.py` lines 60-70). -/
def elevScore (elevDiff : ℚ) : ℚ :=
  if elevDiff > 5 then 1/5
  else if elevDiff < -2 then 1
  else 4/5

/-- Result record of `PhysicalValidator.validate`. -/
structure Layer1Result where
  layer1_score : ℚ
  hand_score : ℚ
  slope_score : ℚ
  elevation_score : ℚ
deriving DecidableEq, Repr

/-- `PhysicalValidator.validate` (`layer1_physical.py` lines 18-85).
`lat`, `lon` and `reported_depth` are accepted but unused, as in the
source. -/
def physicalValidate (lat lon reportedDepth : ℚ) (f : Features) : Layer1Result :=
  let hs := handScore f.hand
  let ss := slopeScore f.slope
  let es := elevScore f.elevationDiffFromNeighbors
  let raw := (4/10) * hs + (4/10) * es + (2/10) * ss
  let clipped := clip01 raw
  { layer1_score := round3 clipped
    hand_score := round3 hs
    slope_score := round3 ss
    elevation_score := round3 es }

/-! ## Feature extraction fallback (`feature_extractor.py`) -/

/-- `FeatureExtractor.extract_all_features` (`feature_extractor.py` lines
94-120), with the raster samples abstracted as `Option ℚ` inputs: `none`
stands for a missing value (raster file absent — in which case the source
already returns `0.0` — or a nodata / error result, returned as `None`
and substituted by `0.0` in `extract_all_features`).  `nbMean`/`nbStd`
are the neighbourhood statistics, which default to `0` when the DEM is
unavailable. -/
def extractAllFeatures (elevation hand slope : Option ℚ) (nbMean nbStd : ℚ) : Features :=
  let elevDiff := match elevation with
    | some e => e - nbMean
    | none => 0
  { elevation := elevation.getD 0
    hand := hand.getD 0
    slope := slope.getD 0
    nbMean := nbMean
    nbStd := nbStd
    elevationDiffFromNeighbors := elevDiff }

/-! ## Layer 3 — reputation (`layer3_reputation.py`) -/

/-- `ReputationSystem.get_trust_score`: the source always returns the
neutral default `0.5` (the database call is a TODO). -/
def getTrustScore (userId : ℤ) : ℚ := 1/2

/-- `ReputationSystem.validate` returns the trust score as
`layer3_score`. -/
def reputationValidate (userId : ℤ) : ℚ := getTrustScore userId

/-- `ReputationSystem.update_trust_score` (`layer3_reputation.py` lines
41-56): `+0.1` when validated, `-0.15` when flagged, clamped to
`[0,1]`. -/
def updateTrustScore (userId : ℤ) (reportOutcome : String) (currentScore : ℚ) : ℚ :=
  let newScore :=
    if reportOutcome = "validated" then currentScore + 1/10
    else if reportOutcome = "flagged" then currentScore - 15/100
    else currentScore
  clip01 newScore

/-! ## Layer 2 — rule-based statistical consistency (`layer2_statistical.py`) -/

/-- A context report row of the `recent_reports` DataFrame (columns
`lat`, `lon`, `depth`, `timestamp`). -/
structure CtxReport where
  lat : ℚ
  lon : ℚ
  depth : ℚ
  timestamp : ℤ
deriving DecidableEq, Repr

/-- Squared-distance test replacing `sqrt((dlat)^2+(dlon)^2) < r`
(equivalent since both sides are nonnegative). -/
def withinRadiusSq (lat lon : ℚ) (r : ℚ) (c : CtxReport) : Bool :=
  decide ((c.lat - lat) ^ 2 + (c.lon - lon) ^ 2 < r ^ 2)

/-- `StatisticalValidator._check_spatial_clustering` (`layer2_statistical.py`
lines 58-83): neighbour count within `0.002` degrees. -/
def spatialCheck (lat lon : ℚ) (reports : List CtxReport) : ℚ :=
  if reports.isEmpty then 1/2
  else
    let nearbyCount := (reports.filter (withinRadiusSq lat lon (2/1000))).length
    if nearbyCount ≥ 5 then 1
    else if nearbyCount ≥ 3 then 4/5
    else if nearbyCount ≥ 1 then 3/5
    else 2/5

/-- `StatisticalValidator._check_temporal_consistency`
(`layer2_statistical.py` lines 85-98). -/
def temporalCheck (rainfallMm : ℚ) : ℚ :=
  if rainfallMm > 100 then 1
  else if rainfallMm > 50 then 4/5
  else if rainfallMm > 10 then 3/5
  else if rainfallMm > 0 then 2/5
  else 1/5

/-- Mean of the depths of a list of context reports. -/
def depthMean (l : List CtxReport) : ℚ := (l.map CtxReport.depth).sum / l.length

/-- Sample variance (pandas `.std()` squared, `ddof = 1`) of the depths.
The source compares `std == 0` and z-scores `|d - mean|/std < 1, 2`;
we embed the equivalent squared comparisons `var == 0`,
`(d - mean)^2 < var`, `(d - mean)^2 < 4*var`. -/
def depthVar (l : List CtxReport) : ℚ :=
  ((l.map (fun c => (c.depth - depthMean l) ^ 2)).sum) / (l.length - 1)

/-- `StatisticalValidator._check_outlier` (`layer2_statistical.py` lines
100-127): neighbours within `0.005` degrees, z-score of the candidate
depth. -/
def outlierCheck (lat lon depth : ℚ) (reports : List CtxReport) : ℚ :=
  if reports.isEmpty then 1/2
  else
    let nearby := reports.filter (withinRadiusSq lat lon (5/1000))
    if nearby.length < 3 then 1/2
    else
      let m := depthMean nearby
      let v := depthVar nearby
      if v = 0 then (if |depth - m| < 1/2 then 1 else 1/5)
      else if (depth - m) ^ 2 < v then 1
      else if (depth - m) ^ 2 < 4 * v then 7/10
      else 1/5

/-- Result record of `StatisticalValidator.validate`. -/
structure Layer2Result where
  layer2_score : ℚ
  spatial_score : ℚ
  temporal_score : ℚ
  outlier_score : ℚ
deriving DecidableEq, Repr

/-- `StatisticalValidator.validate` (`layer2_statistical.py` lines 14-56):
`0.5*spatial + 0.3*temporal + 0.2*outlier`, all rounded to 3 decimals. -/
def layer2Validate (lat lon depth : ℚ) (timestamp : ℤ)
    (recentReports : List CtxReport) (rainfall24h : ℚ) : Layer2Result :=
  let s := spatialCheck lat lon recentReports
  let t := temporalCheck rainfall24h
  let o := outlierCheck lat lon depth recentReports
  { layer2_score := round3 ((5/10) * s + (3/10) * t + (2/10) * o)
    spatial_score := round3 s
    temporal_score := round3 t
    outlier_score := round3 o }

/-! ## DBSCAN cluster score (`dbscan_clustering.py`) -/

/-- A report dict as consumed by `SpatialClusterAnalyzer`: `report_id`
(absent — `None` — for rows coming from the `recent_reports` DataFrame),
`latitude`, `longitude`, plus `depth`/`timestamp` carried by cache
entries. -/
structure CacheEntry where
  report_id : Option ℤ
  latitude : ℚ
  longitude : ℚ
  depth : ℚ
  timestamp : ℤ
deriving DecidableEq, Repr

/-- `min_samples` of the singleton `spatial_analyzer`. -/
def minSamples : ℕ := 3

/-- The sklearn `DBSCAN.fit_predict` call abstracted as an oracle: a
labelling that assigns one integer label per input report (`-1` =
noise).  Everything around it is repository code and is embedded
exactly. -/
structure ClusterOracle where
  run : List CacheEntry → List ℤ
  length_run : ∀ rs, (run rs).length = rs.length

/-- `SpatialClusterAnalyzer.fit_predict` (`dbscan_clustering.py` lines
34-61): fewer than `min_samples` points are all labelled `-1`, otherwise
DBSCAN (the oracle) labels them. -/
def fitPredict (o : ClusterOracle) (reports : List CacheEntry) : List ℤ :=
  if reports.length < minSamples then List.replicate reports.length (-1)
  else o.run reports

/-- `SpatialClusterAnalyzer.get_cluster_score` (`dbscan_clustering.py`
lines 63-104).  `labels[-1]` (numpy negative indexing of a nonempty
array) is embedded as `getLast?`. -/
def getClusterScore (o : ClusterOracle) (report : CacheEntry)
    (allReports : List CacheEntry) : ℚ :=
  if allReports.length < 2 then 1/2
  else
    let idx? := allReports.findIdx? (fun r => r.report_id == report.report_id)
    let labelsAndLabel : List ℤ × ℤ :=
      match idx? with
      | none =>
          let labels := fitPredict o (allReports ++ [report])
          (labels, (labels.getLast?).getD (-1))
      | some i =>
          let labels := fitPredict o allReports
          (labels, labels.getD i (-1))
    let labels := labelsAndLabel.1
    let label := labelsAndLabel.2
    if label = -1 then 1/5
    else
      let clusterSize := labels.count label
      if clusterSize ≥ 10 then 1
      else if clusterSize ≥ 5 then 17/20
      else if clusterSize ≥ 3 then 7/10
      else 1/2

/-- The labelling actually consulted for the candidate: on the context
list extended with the candidate when the candidate's id is not found,
on the context list alone otherwise. -/
def candidateLabels (o : ClusterOracle) (report : CacheEntry)
    (allReports : List CacheEntry) : List ℤ :=
  match allReports.findIdx? (fun r => r.report_id == report.report_id) with
  | none => fitPredict o (allReports ++ [report])
  | some _ => fitPredict o allReports

/-- The cluster label assigned to the candidate report. -/
def candidateLabel (o : ClusterOracle) (report : CacheEntry)
    (allReports : List CacheEntry) : ℤ :=
  match allReports.findIdx? (fun r => r.report_id == report.report_id) with
  | none => ((fitPredict o (allReports ++ [report])).getLast?).getD (-1)
  | some i => (fitPredict o allReports).getD i (-1)

/-- Size of the candidate's assigned cluster. -/
def candidateClusterSize (o : ClusterOracle) (report : CacheEntry)
    (allReports : List CacheEntry) : ℕ :=
  (candidateLabels o report allReports).count (candidateLabel o report allReports)

/-- The score mapping stated by the specification: noise (label `-1`)
scores `0.2`; otherwise by assigned cluster size: `≥10` scores `1.0`,
`≥5` scores `0.85`, `≥3` scores `0.7`, else `0.5`. -/
def clusterScoreMapping (label : ℤ) (clusterSize : ℕ) : ℚ :=
  if label = -1 then 1/5
  else if clusterSize ≥ 10 then 1
  else if clusterSize ≥ 5 then 17/20
  else if clusterSize ≥ 3 then 7/10
  else 1/2

/-! ## Weight network — persisted record and constructor state
(`weight_network.py`, rational part) -/

/-- The flat JSON record written by `WeightLearningNetwork.save`
(`weight_network.py` lines 143-153): raw weights, bias, layer count. -/
structure WeightModelRecord where
  weights : List ℚ
  bias : ℚ
  n_layers : ℕ
deriving DecidableEq, Repr

/-- The mutable state of a `WeightLearningNetwork` instance: layer
count, learning rate, raw weight vector, bias. -/
structure WeightLearningNetwork where
  n_layers : ℕ
  lr : ℚ
  weights : List ℚ
  bias : ℚ
deriving DecidableEq, Repr

/-- `WeightLearningNetwork.__init__` (`weight_network.py` lines 23-39):
uniform raw weights `np.ones(n)/n`, zero bias. -/
def mkNetwork (nLayers : ℕ) (learningRate : ℚ) : WeightLearningNetwork :=
  { n_layers := nLayers
    lr := learningRate
    weights := List.replicate nLayers (1 / (nLayers : ℚ))
    bias := 0 }

/-- `WeightLearningNetwork.save` (`weight_network.py` lines 143-153),
restricted to the record it serialises. -/
def saveRecord (m : WeightLearningNetwork) : WeightModelRecord :=
  { weights := m.weights, bias := m.bias, n_layers := m.n_layers }

/-- `WeightLearningNetwork.load` (`weight_network.py` lines 155-164):
construct a default network with the recorded layer count (default
learning rate `0.01`), then overwrite `weights` and `bias` with the
persisted values verbatim.  The source performs no dimension check. -/
def loadNetwork (rec : WeightModelRecord) : WeightLearningNetwork :=
  { mkNetwork rec.n_layers (1/100) with weights := rec.weights, bias := rec.bias }

/-! ## Weight network — forward pass over `ℝ` (`weight_network.py`) -/

/-- `np.max` over the weight vector (raises on an empty array; `0` is
junk for `n = 0`, never used under the `0 < n` hypotheses). -/
noncomputable def vecMax {n : ℕ} (w : Fin n → ℝ) : ℝ :=
  if h : 0 < n then Finset.univ.sup' ⟨⟨0, h⟩, Finset.mem_univ _⟩ w else 0

/-- `WeightLearningNetwork._softmax` (`weight_network.py` lines 60-63):
`exp(x - max(x)) / exp(x - max(x)).sum()`. -/
noncomputable def softmax {n : ℕ} (w : Fin n → ℝ) : Fin n → ℝ :=
  fun i => Real.exp (w i - vecMax w) / ∑ j, Real.exp (w j - vecMax w)

/-- `WeightLearningNetwork._sigmoid` (`weight_network.py` lines 56-58):
`1 / (1 + exp(-clip(x, -20, 20)))`. -/
noncomputable def sigmoid (x : ℝ) : ℝ :=
  1 / (1 + Real.exp (-(max (-20) (min 20 x))))

/-- `WeightLearningNetwork.forward` (`weight_network.py` lines 41-54):
`sigmoid(dot(softmax(w), scores) + bias)`. -/
noncomputable def forwardNet {n : ℕ} (w : Fin n → ℝ) (b : ℝ)
    (layerScores : Fin n → ℝ) : ℝ :=
  sigmoid ((∑ i, softmax w i * layerScores i) + b)

/-! ## API request bounds (`api/schemas.py`) -/

/-- The pydantic field constraints of `FloodReportBase`
(`api/schemas.py` lines 30-35): `latitude ∈ [-90, 90]`,
`longitude ∈ [-180, 180]`, `depth_meters ∈ [0, 20]`.  A request
violating any of them is rejected by the transport layer with a
validation error before `submit_report` (and hence any scoring)
runs. -/
def apiAcceptsReport (lat lon depth : ℚ) : Bool :=
  decide (-90 ≤ lat ∧ lat ≤ 90 ∧ -180 ≤ lon ∧ lon ≤ 180 ∧ 0 ≤ depth ∧ depth ≤ 20)

/-! ## Orchestrator (`validator.py`, `FloodReportValidator.validate_report`) -/

/-- Observable steps of one `validate_report` call, in source order.
`callUpdateTrust` would record an invocation of
`ReputationSystem.update_trust_score`; the source body (lines 87-243)
contains no such call, so no constructor of the trace ever emits it. -/
inductive OEvent where
  | extractFeatures
  | fetchWeather
  | scoreLayer1
  | checkGroundTruth
  | clusterScore
  | scoreLayer2Rule
  | scoreReputation (userId : ℤ)
  | callUpdateTrust (userId : ℤ) (outcome : String)
  | fetchSocial
  | classifyImage
  | aggregate
  | appendCache
deriving DecidableEq, Repr

/-- Recognise a trust-update invocation in the trace. -/
def OEvent.isTrustUpdate : OEvent → Bool
  | .callUpdateTrust _ _ => true
  | _ => false

/-- Recognise a reputation scoring (layer-3 `validate`) call. -/
def OEvent.isReputationScoring : OEvent → Bool
  | .scoreReputation _ => true
  | _ => false

/-- Output of `ImageClassifier.validate_image` as consumed by the
orchestrator. -/
structure CVResult where
  valid : Bool
  score : ℚ
  is_flood_detected : Bool
  water_coverage : ℚ
deriving DecidableEq, Repr

/-- Responses of the external collaborators consumed during one call:
terrain features, weather (`none` = service unavailable), ground-truth
zone flag, social buzz score, image-classifier output, and the DBSCAN
labelling. -/
structure Collaborators where
  features : Features
  weather : Option ℚ
  inFloodZone : Bool
  buzzScore : ℚ
  cv : CVResult
  oracle : ClusterOracle

/-- Arguments of `validate_report` (`validator.py` lines 87-96). -/
structure ValidateArgs where
  report_id : ℤ
  user_id : ℤ
  lat : ℚ
  lon : ℚ
  depth : ℚ
  timestamp : ℤ
  recent_reports : Option (List CtxReport)
  rainfall_24h : Option ℚ
  hasImage : Bool
deriving DecidableEq, Repr

/-- Conversion of a DataFrame row to the dict shape used by DBSCAN
(`validator.py` lines 150-153): `latitude`/`longitude` filled from
`lat`/`lon`, no `report_id` key. -/
def CtxReport.toCacheEntry (r : CtxReport) : CacheEntry :=
  { report_id := none
    latitude := r.lat
    longitude := r.lon
    depth := r.depth
    timestamp := r.timestamp }

/-- The `current_report` dict built at `validator.py` lines 140-146. -/
def currentEntry (a : ValidateArgs) : CacheEntry :=
  { report_id := some a.report_id
    latitude := a.lat
    longitude := a.lon
    depth := a.depth
    timestamp := a.timestamp }

/-- Maximum size of the orchestrator's rolling report cache
(`validator.py` line 225). -/
def maxCacheSize : ℕ := 500

/-- Cache append-and-evict (`validator.py` lines 224-226): append the
current report, then keep only the last `500` entries
(`cache[-500:]`). -/
def updateCache (cache : List CacheEntry) (current : CacheEntry) : List CacheEntry :=
  let appended := cache ++ [current]
  if appended.length > maxCacheSize then appended.drop (appended.length - maxCacheSize)
  else appended

/-- Layer-5 visual verification (`validator.py` lines 197-208):
`(layer5_score, applied, is_flood)`; neutral `(0.5, false, false)` when
no image is supplied or the classifier rejects it. -/
def layer5Result (hasImage : Bool) (cv : CVResult) : ℚ × Bool × Bool :=
  if hasImage ∧ cv.valid then (round3 cv.score, true, cv.is_flood_detected)
  else (1/2, false, false)

/-- Photo boost (`validator.py` lines 218-219): `+0.1` capped at `1.0`
when visual evidence was applied and flood-positive. -/
def applyPhotoBoost (applied isFlood : Bool) (f0 : ℚ) : ℚ :=
  if applied ∧ isFlood then min (f0 + 1/10) 1 else f0

/-- Decision rule (`validator.py` line 221): `validated` iff the
(pre-rounding) final score is `≥ 0.7`. -/
def decideStatus (finalScore : ℚ) : String :=
  if finalScore ≥ 7/10 then "validated" else "flagged"

/-- The returned dict of `validate_report` (`validator.py` lines
228-243), flattened to the numeric/boolean fields the claims are
about.  `final_score`, `layer1_score`, `layer2_score`, `dbscan_score`
and `layer4_score` are rounded to 3 decimals at assembly, as in the
source. -/
structure VResult where
  report_id : ℤ
  status : String
  final_score : ℚ
  layer1_score : ℚ
  zone_boost : Bool
  layer2_score : ℚ
  dbscan_score : ℚ
  rule_score : ℚ
  layer3_score : ℚ
  layer4_score : ℚ
  layer5_score : ℚ
  layer5_applied : Bool
  layer5_is_flood : Bool
  rainfall_24h : ℚ
deriving DecidableEq, Repr

/-- Full effect of one `validate_report` call: the returned result, the
pre-rounding value of the `final_score` variable, the new cache, and
the trace of steps taken. -/
structure VOutcome where
  result : VResult
  final_raw : ℚ
  newCache : List CacheEntry
  events : List OEvent

/-- `FloodReportValidator.validate_report` (`validator.py` lines
87-243), with the trained aggregator `self.weight_network.forward`
injected as `agg` (it is instance state loaded at construction) and the
collaborator responses injected as `c`. -/
def validateReport (agg : List ℚ → ℚ) (cache : List CacheEntry)
    (c : Collaborators) (a : ValidateArgs) : VOutcome :=
  -- Step 0: feature extraction, then weather unless rainfall was passed
  let features := c.features
  let rainfall := match a.rainfall_24h with
    | some r => r
    | none => c.weather.getD 0
  -- Layer 1: physical plausibility, then ground-truth zone boost
  let l1r := physicalValidate a.lat a.lon a.depth features
  let l1base := l1r.layer1_score
  let l1 := if c.inFloodZone then min (l1base + 2/10) 1 else l1base
  -- Layer 2: DBSCAN cluster score on provided reports or the cache
  let current := currentEntry a
  let reportsList := match a.recent_reports with
    | some rs => if rs.length > 0 then rs.map CtxReport.toCacheEntry else cache
    | none => cache
  let dbscanScore := getClusterScore c.oracle current reportsList
  let l2rule := layer2Validate a.lat a.lon a.depth a.timestamp
    (a.recent_reports.getD []) rainfall
  let l2 := (6/10) * dbscanScore + (4/10) * l2rule.layer2_score
  -- Layer 3: reputation
  let l3 := reputationValidate a.user_id
  -- Layer 4: social context
  let l4 := c.buzzScore
  -- Layer 5: optional visual verification; (score, applied, is_flood)
  let l5 := layer5Result a.hasImage c.cv
  -- Weighted aggregation, photo boost, decision
  let final0 := agg [l1, l2, l3, l4]
  let final := applyPhotoBoost l5.2.1 l5.2.2 final0
  let status := decideStatus final
  let newCache := updateCache cache current
  { result :=
      { report_id := a.report_id
        status := status
        final_score := round3 final
        layer1_score := round3 l1
        zone_boost := c.inFloodZone
        layer2_score := round3 l2
        dbscan_score := round3 dbscanScore
        rule_score := l2rule.layer2_score
        layer3_score := l3
        layer4_score := round3 l4
        layer5_score := l5.1
        layer5_applied := l5.2.1
        layer5_is_flood := l5.2.2
        rainfall_24h := rainfall }
    final_raw := final
    newCache := newCache
    events := [OEvent.extractFeatures]
      ++ (if a.rainfall_24h.isNone then [OEvent.fetchWeather] else [])
      ++ [OEvent.scoreLayer1, OEvent.checkGroundTruth, OEvent.clusterScore,
          OEvent.scoreLayer2Rule, OEvent.scoreReputation a.user_id, OEvent.fetchSocial]
      ++ (if a.hasImage then [OEvent.classifyImage] else [])
      ++ [OEvent.aggregate, OEvent.appendCache] }


/-! ## Concrete fixtures used by witnesses and counterexamples -/

/-- A DBSCAN labelling that marks every point as noise. -/
def noiseOracle : ClusterOracle :=
  { run := fun rs => List.replicate rs.length (-1)
    length_run := fun rs => by simp }

/-- A DBSCAN labelling that puts every point into one cluster `0`. -/
def oneClusterOracle : ClusterOracle :=
  { run := fun rs => List.replicate rs.length 0
    length_run := fun rs => by simp }

/-- Collaborator responses with every external signal unavailable or
neutral: missing rasters, no weather, not in a flood zone, zero buzz,
no usable image. -/
def collabNeutral : Collaborators :=
  { features := extractAllFeatures none none none 0 0
    weather := none
    inFloodZone := false
    buzzScore := 0
    cv := { valid := false, score := 0, is_flood_detected := false, water_coverage := 0 }
    oracle := noiseOracle }

/-- A representative in-domain call (Cuttack coordinates, depth 1.5 m,
explicit rainfall, no image). -/
def argsBase : ValidateArgs :=
  { report_id := 1, user_id := 1, lat := 204625/10000, lon := 858830/10000
    depth := 3/2, timestamp := 0, recent_reports := none
    rainfall_24h := some 50, hasImage := false }

/-- An out-of-domain call: latitude 200, longitude 300, depth -1. -/
def argsOutOfBounds : ValidateArgs :=
  { report_id := 2, user_id := 1, lat := 200, lon := 300
    depth := -1, timestamp := 0, recent_reports := none
    rainfall_24h := some 0, hasImage := false }

/-- Six context reports (DataFrame rows carry no `report_id`). -/
def ctxSix : List CacheEntry :=
  [{ report_id := none, latitude := 20, longitude := 85, depth := 1, timestamp := 0 },
   { report_id := none, latitude := 20 + 1/1000, longitude := 85, depth := 1, timestamp := 0 },
   { report_id := none, latitude := 20, longitude := 85 + 1/1000, depth := 1, timestamp := 0 },
   { report_id := none, latitude := 20 - 1/1000, longitude := 85, depth := 1, timestamp := 0 },
   { report_id := none, latitude := 20, longitude := 85 - 1/1000, depth := 1, timestamp := 0 },
   { report_id := none, latitude := 20 + 1/1000, longitude := 85 + 1/1000, depth := 1, timestamp := 0 }]

/-- A single context report. -/
def ctxOne : List CacheEntry :=
  [{ report_id := none, latitude := 0, longitude := 0, depth := 0, timestamp := 0 }]

/-- The candidate report joining `ctxSix` to form a cluster of size 7. -/
def candSeven : CacheEntry :=
  { report_id := some 7, latitude := 20, longitude := 85, depth := 1, timestamp := 0 }

/-! ## Helper lemmas -/

theorem round3_mono {a b : ℚ} (h : a ≤ b) : round3 a ≤ round3 b := by
  unfold round3
  have hz : round (1000 * a) ≤ round (1000 * b) := by
    simpa [round_eq] using Int.floor_mono (by linarith : 1000 * a + 1 / 2 ≤ 1000 * b + 1 / 2)
  have hq : ((round (1000 * a) : ℤ) : ℚ) ≤ ((round (1000 * b) : ℤ) : ℚ) := by exact_mod_cast hz
  linarith

theorem round3_intCast (k : ℤ) : round3 ((k : ℚ)) = k := by
  unfold round3
  have h : (1000 : ℚ) * (k : ℚ) = ((1000 * k : ℤ) : ℚ) := by push_cast; ring
  rw [h, round_intCast]
  push_cast
  ring

/-- `round3` of a multiple of `1/1000` given as `n/1000` is itself. -/
theorem round3_thousandth (n : ℤ) : round3 ((n : ℚ) / 1000) = (n : ℚ) / 1000 := by
  unfold round3
  have : (1000 : ℚ) * ((n : ℚ) / 1000) = (n : ℚ) := by ring
  rw [this, round_intCast]

theorem length_fitPredict (o : ClusterOracle) (reports : List CacheEntry) :
    (fitPredict o reports).length = reports.length := by
  unfold fitPredict
  by_cases h : reports.length < minSamples
  · simp [h]
  · simp [h, o.length_run]

theorem getClusterScore_eq_mapping (o : ClusterOracle) (report : CacheEntry)
    (allReports : List CacheEntry) (h : 2 ≤ allReports.length) :
    getClusterScore o report allReports =
      clusterScoreMapping (candidateLabel o report allReports)
        (candidateClusterSize o report allReports) := by
  unfold getClusterScore clusterScoreMapping candidateClusterSize candidateLabels candidateLabel
  have h2 : ¬ allReports.length < 2 := by omega
  simp only [h2, if_false]
  cases hidx : allReports.findIdx? (fun r => r.report_id == report.report_id) <;>
    simp [hidx]

theorem round3_zero : round3 0 = 0 := by
  simpa using round3_intCast 0

theorem round3_one : round3 1 = 1 := by
  simpa using round3_intCast 1

theorem round3_mem01 {q : ℚ} (h0 : 0 ≤ q) (h1 : q ≤ 1) :
    0 ≤ round3 q ∧ round3 q ≤ 1 := by
  constructor
  · have := round3_mono h0
    rwa [round3_zero] at this
  · have := round3_mono h1
    rwa [round3_one] at this

theorem decideStatus_eq_validated (f : ℚ) :
    decideStatus f = "validated" ↔ 7/10 ≤ f := by
  unfold decideStatus
  by_cases h : 7/10 ≤ f <;> simp [ge_iff_le, h]

theorem applyPhotoBoost_mem01 (applied isFlood : Bool) {f0 : ℚ}
    (h0 : 0 ≤ f0) (h1 : f0 ≤ 1) :
    0 ≤ applyPhotoBoost applied isFlood f0 ∧ applyPhotoBoost applied isFlood f0 ≤ 1 := by
  unfold applyPhotoBoost
  by_cases h : applied = true ∧ isFlood = true
  · simp only [h, and_self, if_pos]
    constructor
    · exact le_min (by linarith) (by norm_num)
    · exact min_le_right _ _
  · rw [if_neg (by simpa using h)]
    exact ⟨h0, h1⟩

theorem validateReport_status (agg : List ℚ → ℚ) (cache : List CacheEntry)
    (c : Collaborators) (a : ValidateArgs) :
    (validateReport agg cache c a).result.status =
      decideStatus (validateReport agg cache c a).final_raw := rfl

theorem validateReport_final_score (agg : List ℚ → ℚ) (cache : List CacheEntry)
    (c : Collaborators) (a : ValidateArgs) :
    (validateReport agg cache c a).result.final_score =
      round3 (validateReport agg cache c a).final_raw := rfl

theorem validateReport_final_raw (agg : List ℚ → ℚ) (cache : List CacheEntry)
    (c : Collaborators) (a : ValidateArgs) :
    ∃ (applied isFlood : Bool) (l : List ℚ),
      (validateReport agg cache c a).final_raw = applyPhotoBoost applied isFlood (agg l) :=
  ⟨_, _, _, rfl⟩

theorem validateReport_newCache (agg : List ℚ → ℚ) (cache : List CacheEntry)
    (c : Collaborators) (a : ValidateArgs) :
    (validateReport agg cache c a).newCache = updateCache cache (currentEntry a) := rfl

theorem updateCache_eq (cache : List CacheEntry) (r : CacheEntry) :
    updateCache cache r = (cache ++ [r]).drop ((cache ++ [r]).length - maxCacheSize) := by
  unfold updateCache
  by_cases h : (cache ++ [r]).length > maxCacheSize
  · rw [if_pos h]
  · rw [if_neg h]
    have h0 : (cache ++ [r]).length - maxCacheSize = 0 := by omega
    rw [h0, List.drop_zero]

theorem updateCache_length_le (cache : List CacheEntry) (r : CacheEntry) :
    (updateCache cache r).length ≤ maxCacheSize := by
  rw [updateCache_eq, List.length_drop]
  have h1 : 1 ≤ (cache ++ [r]).length := by simp
  omega

theorem updateCache_getLast (cache : List CacheEntry) (r : CacheEntry) :
    (updateCache cache r).getLast? = some r := by
  rw [updateCache_eq]
  have hmax : 1 ≤ maxCacheSize := by norm_num [maxCacheSize]
  have hle : (cache ++ [r]).length - maxCacheSize ≤ cache.length := by
    have : (cache ++ [r]).length = cache.length + 1 := by simp
    omega
  rw [List.drop_append_of_le_length hle]
  exact List.getLast?_concat _

set_option maxRecDepth 4000 in
theorem foldl_updateCache (rs : List CacheEntry) :
    ∀ init : List CacheEntry, init.length ≤ maxCacheSize →
      rs.foldl updateCache init = (init ++ rs).drop ((init ++ rs).length - maxCacheSize) := by
  induction rs with
  | nil =>
      intro init hinit
      simp only [List.foldl_nil, List.append_nil]
      have h0 : init.length - maxCacheSize = 0 := by omega
      rw [h0, List.drop_zero]
  | cons r rs ih =>
      intro init hinit
      rw [List.foldl_cons, ih (updateCache init r) (updateCache_length_le init r)]
      rw [updateCache_eq init r]
      have hk : (init ++ [r]).length - maxCacheSize ≤ (init ++ [r]).length := by omega
      rw [← List.drop_append_of_le_length hk, List.drop_drop]
      rw [show (init ++ [r]) ++ rs = init ++ r :: rs by simp]
      refine congrArg (fun n => List.drop n (init ++ r :: rs)) ?_
      have hmax : 1 ≤ maxCacheSize := by norm_num [maxCacheSize]
      simp only [List.length_drop, List.length_append, List.length_cons,
        List.length_nil]
      omega

theorem sigmoid_pos (x : ℝ) : 0 < sigmoid x := by
  unfold sigmoid
  positivity

theorem sigmoid_lt_one (x : ℝ) : sigmoid x < 1 := by
  unfold sigmoid
  rw [div_lt_one (by positivity)]
  linarith [Real.exp_pos (-(max (-20) (min 20 x)))]

theorem sigmoid_of_mem {x : ℝ} (h1 : -20 ≤ x) (h2 : x ≤ 20) :
    sigmoid x = 1 / (1 + Real.exp (-x)) := by
  unfold sigmoid
  rw [min_eq_right h2, max_eq_right h1]

theorem sigmoid_zero : sigmoid 0 = 1/2 := by
  rw [sigmoid_of_mem (by norm_num) (by norm_num)]
  norm_num

theorem sigmoid_continuous : Continuous sigmoid := by
  unfold sigmoid
  have hin : Continuous fun x : ℝ => -max (-20) (min 20 x) :=
    (continuous_const.max (continuous_const.min continuous_id)).neg
  have hden : Continuous fun x : ℝ => 1 + Real.exp (-max (-20) (min 20 x)) :=
    continuous_const.add (Real.continuous_exp.comp hin)
  exact continuous_const.div hden (fun x => by positivity)

theorem sigmoid_one_large : (6996/10000 : ℝ) ≤ sigmoid 1 := by
  rw [sigmoid_of_mem (by norm_num) (by norm_num), Real.exp_neg]
  have he : (27/10 : ℝ) < Real.exp 1 := by
    have h9 := Real.exp_one_gt_d9
    linarith
  have hinv : (Real.exp 1)⁻¹ < (27/10 : ℝ)⁻¹ :=
    inv_strictAnti₀ (by norm_num) he
  have hden : 1 + (Real.exp 1)⁻¹ < 37/27 := by
    have h1027 : ((27:ℝ)/10)⁻¹ = 10/27 := by norm_num
    rw [h1027] at hinv
    linarith
  have hstep : (1:ℝ)/(37/27) ≤ 1/(1 + (Real.exp 1)⁻¹) := by
    apply one_div_le_one_div_of_le
    · positivity
    · linarith
  have h2737 : (6996/10000 : ℝ) ≤ 1/(37/27) := by norm_num
  linarith

theorem sigmoid_attains_6996 : ∃ x : ℝ, sigmoid x = 6996/10000 := by
  have hf : ContinuousOn sigmoid (Set.Icc (0:ℝ) 1) := sigmoid_continuous.continuousOn
  have hmem : (6996/10000 : ℝ) ∈ Set.Icc (sigmoid 0) (sigmoid 1) := by
    constructor
    · rw [sigmoid_zero]; norm_num
    · exact sigmoid_one_large
  obtain ⟨x, _, hx⟩ := intermediate_value_Icc (by norm_num : (0:ℝ) ≤ 1) hf hmem
  exact ⟨x, hx⟩

theorem softmax_sum {n : ℕ} (hn : 0 < n) (w : Fin n → ℝ) :
    ∑ i, softmax w i = 1 := by
  unfold softmax
  rw [← Finset.sum_div]
  apply div_self
  have hne : (Finset.univ : Finset (Fin n)).Nonempty := ⟨⟨0, hn⟩, Finset.mem_univ _⟩
  exact ne_of_gt (Finset.sum_pos (fun i _ => Real.exp_pos _) hne)

theorem vecMax_const {n : ℕ} (hn : 0 < n) (c : ℝ) :
    vecMax (fun _ : Fin n => c) = c := by
  unfold vecMax
  rw [dif_pos hn]
  exact Finset.sup'_const _ c

theorem softmax_const {n : ℕ} (hn : 0 < n) (c : ℝ) (i : Fin n) :
    softmax (fun _ : Fin n => c) i = 1 / n := by
  unfold softmax
  rw [vecMax_const hn c]
  simp [Real.exp_zero]

theorem validateReport_final_raw_boost (agg : List ℚ → ℚ) (cache : List CacheEntry)
    (c : Collaborators) (a : ValidateArgs) :
    ∃ l : List ℚ,
      (validateReport agg cache c a).final_raw =
        applyPhotoBoost (layer5Result a.hasImage c.cv).2.1
          (layer5Result a.hasImage c.cv).2.2 (agg l) :=
  ⟨_, rfl⟩

/-! ## Claim theorems -/

/-- C1: the claim that every completed validation invokes the reputation
trust update exactly once after the decision is false of the code: the
body of `validate_report` scores the reputation layer exactly once but
never calls `ReputationSystem.update_trust_score`, on any input.  The
trace of every call contains one reputation-scoring event and zero
trust-update events. -/
theorem C1_trust_update_never_invoked :
    ∀ (agg : List ℚ → ℚ) (cache : List CacheEntry) (c : Collaborators) (a : ValidateArgs),
      ((validateReport agg cache c a).events.countP OEvent.isTrustUpdate) = 0 ∧
      ((validateReport agg cache c a).events.countP OEvent.isReputationScoring) = 1 := by
  intro agg cache c a
  unfold validateReport
  rcases hr : a.rainfall_24h with _ | r <;> rcases hi : a.hasImage <;>
    simp [hr, hi, OEvent.isTrustUpdate, OEvent.isReputationScoring,
      List.countP_append, List.countP_cons]

/-- C4 (counterexample): for hand=2.0, slope=1.5, elev_diff=-0.5 the
physical scorer returns the layer-1 score 0.846, not ≈0.806 as the claim
states. -/
theorem C4_layer1_example_counterexample :
    (physicalValidate 0 0 0
        { elevation := 0, hand := 2, slope := 3/2, nbMean := 0, nbStd := 0,
          elevationDiffFromNeighbors := -1/2 }).layer1_score = 846/1000 ∧
    (846/1000 : ℚ) ≠ 806/1000 := by
  constructor
  · norm_num [physicalValidate, handScore, slopeScore, elevScore, clip01, round3, round_eq]
  · norm_num

/-- C4 (amended): for hand=2.0, slope=1.5, elev_diff=-0.5 (any
coordinates and depth) the scorer computes hand_sub=0.85,
slope_sub=0.931, elev_sub=0.8, and the final layer-1 score
0.4*0.85+0.4*0.8+0.2*0.931 = 0.8462, clipped and rounded to 0.846. -/
theorem C4_layer1_example_amended :
    ∀ lat lon depth : ℚ,
      physicalValidate lat lon depth
          { elevation := 0, hand := 2, slope := 3/2, nbMean := 0, nbStd := 0,
            elevationDiffFromNeighbors := -1/2 } =
        { layer1_score := 846/1000, hand_score := 85/100,
          slope_score := 931/1000, elevation_score := 8/10 } ∧
      (4/10 : ℚ) * (85/100) + (4/10) * (8/10) + (2/10) * (931/1000) = 8462/10000 ∧
      round3 (8462/10000) = 846/1000 := by
  intro lat lon depth
  refine ⟨?_, by norm_num, by norm_num [round3, round_eq]⟩
  norm_num [physicalValidate, handScore, slopeScore, elevScore, clip01, round3, round_eq,
    Layer1Result.mk.injEq]

/-- C2 (counterexample): the feature provider substitutes 0.0 (not
hand=5, slope=2) for missing terrain data, so the layer-1 score with all
terrain signals missing is 0.92, while the score at hand=5, slope=2,
elev_diff=0 is 0.662; the claimed equality fails. -/
theorem C2_missing_feature_default_counterexample :
    (physicalValidate 0 0 0 (extractAllFeatures none none none 0 0)).layer1_score = 92/100 ∧
    (physicalValidate 0 0 0
        { elevation := 0, hand := 5, slope := 2, nbMean := 0, nbStd := 0,
          elevationDiffFromNeighbors := 0 }).layer1_score = 662/1000 ∧
    (physicalValidate 0 0 0 (extractAllFeatures none none none 0 0)).layer1_score ≠
      (physicalValidate 0 0 0
        { elevation := 0, hand := 5, slope := 2, nbMean := 0, nbStd := 0,
          elevationDiffFromNeighbors := 0 }).layer1_score := by
  refine ⟨?h1, ?h2, ?h3⟩
  case h1 =>
    norm_num [physicalValidate, extractAllFeatures, handScore, slopeScore, elevScore,
      clip01, round3, round_eq]
  case h2 =>
    norm_num [physicalValidate, handScore, slopeScore, elevScore, clip01, round3, round_eq]
  case h3 =>
    norm_num [physicalValidate, extractAllFeatures, handScore, slopeScore, elevScore,
      clip01, round3, round_eq]

/-- C2 (amended): when terrain rasters are unavailable the extractor
substitutes 0.0 for every feature (it is a total function, never
raising), so the layer-1 score of a report with all terrain signals
missing equals the score at hand=0, slope=0, elev_diff=0, namely
0.92. -/
theorem C2_missing_feature_default_amended :
    ∀ lat lon depth : ℚ,
      extractAllFeatures none none none 0 0 =
        { elevation := 0, hand := 0, slope := 0, nbMean := 0, nbStd := 0,
          elevationDiffFromNeighbors := 0 } ∧
      physicalValidate lat lon depth (extractAllFeatures none none none 0 0) =
        physicalValidate lat lon depth
          { elevation := 0, hand := 0, slope := 0, nbMean := 0, nbStd := 0,
            elevationDiffFromNeighbors := 0 } ∧
      (physicalValidate lat lon depth (extractAllFeatures none none none 0 0)).layer1_score
        = 92/100 := by
  intro lat lon depth
  refine ⟨rfl, rfl, ?_⟩
  norm_num [physicalValidate, extractAllFeatures, handScore, slopeScore, elevScore,
    clip01, round3, round_eq]

/-- C3 (counterexample): loading a persisted record whose weight list
has length 2 but whose recorded layer count is 4 succeeds silently: the
loaded model keeps the 2-element vector and the recorded `n_layers = 4`,
so its weight-vector length does not equal its recorded layer count and
no dimension-mismatch error is raised. -/
theorem C3_load_no_dimension_check_counterexample :
    (loadNetwork { weights := [1/2, 1/2], bias := 0, n_layers := 4 }).weights.length = 2 ∧
    (loadNetwork { weights := [1/2, 1/2], bias := 0, n_layers := 4 }).n_layers = 4 ∧
    (loadNetwork { weights := [1/2, 1/2], bias := 0, n_layers := 4 }).weights.length ≠
      (loadNetwork { weights := [1/2, 1/2], bias := 0, n_layers := 4 }).n_layers := by
  refine ⟨rfl, rfl, ?_⟩
  show (2 : ℕ) ≠ 4
  norm_num

/-- C3 (amended): `load` performs no dimension check and never fails; it
returns the persisted weight vector verbatim (its length is the
persisted list's length, whatever the recorded layer count says) with
the recorded `n_layers` and bias, and loading a saved model restores its
weights, bias and layer count. -/
theorem C3_load_verbatim_amended :
    ∀ rec : WeightModelRecord,
      loadNetwork rec =
        { n_layers := rec.n_layers, lr := 1/100, weights := rec.weights, bias := rec.bias } ∧
      (loadNetwork rec).weights.length = rec.weights.length ∧
      ∀ m : WeightLearningNetwork,
        loadNetwork (saveRecord m) =
          { n_layers := m.n_layers, lr := 1/100, weights := m.weights, bias := m.bias } := by
  intro rec
  exact ⟨rfl, rfl, fun m => rfl⟩

/-- C9: after any sequence of validation calls the cache holds at most
500 entries and eviction is FIFO: each call replaces the cache by
append-then-keep-the-last-500, the report just validated is always the
last retained entry, and folding the cache update over any sequence of
entries retains exactly the most recent 500 of them. -/
theorem C9_cache_bounded_fifo :
    (∀ (agg : List ℚ → ℚ) (cache : List CacheEntry) (c : Collaborators) (a : ValidateArgs),
        (validateReport agg cache c a).newCache = updateCache cache (currentEntry a) ∧
        (validateReport agg cache c a).newCache.getLast? = some (currentEntry a)) ∧
    (∀ entries : List CacheEntry,
        (entries.foldl updateCache []).length ≤ maxCacheSize ∧
        entries.foldl updateCache [] = entries.drop (entries.length - maxCacheSize)) := by
  constructor
  · intro agg cache c a
    refine ⟨validateReport_newCache agg cache c a, ?_⟩
    rw [validateReport_newCache]
    exact updateCache_getLast cache (currentEntry a)
  · intro entries
    have h := foldl_updateCache entries [] (by simp)
    simp only [List.nil_append] at h
    refine ⟨?_, h⟩
    rw [h, List.length_drop]
    omega

/-- C6 (counterexample): a report with latitude 200, longitude 300 and
depth -1 is not rejected by the validation entry point: `validate_report`
runs layer scoring and returns a fully scored result (here final score
0.5, status flagged) instead of surfacing a validation error. -/
theorem C6_no_rejection_in_validator_counterexample :
    apiAcceptsReport 200 300 (-1) = false ∧
    OEvent.scoreLayer1 ∈ (validateReport (fun _ => 1/2) [] collabNeutral argsOutOfBounds).events ∧
    (validateReport (fun _ => 1/2) [] collabNeutral argsOutOfBounds).result.final_score = 1/2 ∧
    (validateReport (fun _ => 1/2) [] collabNeutral argsOutOfBounds).result.status
      = "flagged" := by
  refine ⟨?h1, ?h2, ?h3, ?h4⟩
  case h1 =>
    simp only [apiAcceptsReport, decide_eq_false_iff_not]
    norm_num
  case h2 =>
    simp [validateReport, argsOutOfBounds]
  case h3 =>
    obtain ⟨l, hl⟩ :=
      validateReport_final_raw_boost (fun _ => 1/2) [] collabNeutral argsOutOfBounds
    rw [validateReport_final_score, hl]
    norm_num [layer5Result, argsOutOfBounds, collabNeutral, applyPhotoBoost,
      round3, round_eq]
  case h4 =>
    obtain ⟨l, hl⟩ :=
      validateReport_final_raw_boost (fun _ => 1/2) [] collabNeutral argsOutOfBounds
    rw [validateReport_status, hl]
    norm_num [layer5Result, argsOutOfBounds, collabNeutral, applyPhotoBoost, decideStatus]

/-- C6 (amended): out-of-domain coordinates and depths are rejected by
the API request schema (pydantic bounds lat∈[-90,90], lon∈[-180,180],
depth∈[0,20]) before any scoring runs; the validator entry point itself
performs no bounds check and always runs layer scoring to completion. -/
theorem C6_bounds_checked_at_api_amended :
    (∀ lat lon depth : ℚ,
        apiAcceptsReport lat lon depth = true ↔
          (-90 ≤ lat ∧ lat ≤ 90 ∧ -180 ≤ lon ∧ lon ≤ 180 ∧ 0 ≤ depth ∧ depth ≤ 20)) ∧
    (∀ (agg : List ℚ → ℚ) (cache : List CacheEntry) (c : Collaborators) (a : ValidateArgs),
        OEvent.scoreLayer1 ∈ (validateReport agg cache c a).events) := by
  constructor
  · intro lat lon depth
    simp [apiAcceptsReport]
  · intro agg cache c a
    unfold validateReport
    rcases hr : a.rainfall_24h with _ | r <;> rcases hi : a.hasImage <;> simp [hr, hi]

theorem clusterScoreMapping_lb (l : ℤ) (s : ℕ) (hl : l ≠ -1) :
    clusterScoreMapping (-1) s ≤ clusterScoreMapping l s := by
  unfold clusterScoreMapping
  rw [if_pos rfl, if_neg hl]
  by_cases h10 : s ≥ 10
  · rw [if_pos h10]; norm_num
  · rw [if_neg h10]
    by_cases h5 : s ≥ 5
    · rw [if_pos h5]; norm_num
    · rw [if_neg h5]
      by_cases h3 : s ≥ 3
      · rw [if_pos h3]; norm_num
      · rw [if_neg h3]; norm_num

theorem clusterScoreMapping_mono (l : ℤ) (hl : l ≠ -1) {s₁ s₂ : ℕ} (h : s₁ ≤ s₂) :
    clusterScoreMapping l s₁ ≤ clusterScoreMapping l s₂ := by
  unfold clusterScoreMapping
  rw [if_neg hl, if_neg hl]
  by_cases h10 : s₁ ≥ 10
  · rw [if_pos h10, if_pos (le_trans h10 h)]
  · rw [if_neg h10]
    by_cases h5 : s₁ ≥ 5
    · rw [if_pos h5]
      by_cases k10 : s₂ ≥ 10
      · rw [if_pos k10]; norm_num
      · rw [if_neg k10, if_pos (le_trans h5 h)]
    · rw [if_neg h5]
      by_cases h3 : s₁ ≥ 3
      · rw [if_pos h3]
        by_cases k10 : s₂ ≥ 10
        · rw [if_pos k10]; norm_num
        · rw [if_neg k10]
          by_cases k5 : s₂ ≥ 5
          · rw [if_pos k5]; norm_num
          · rw [if_neg k5, if_pos (le_trans h3 h)]
      · rw [if_neg h3]
        by_cases k10 : s₂ ≥ 10
        · rw [if_pos k10]; norm_num
        · rw [if_neg k10]
          by_cases k5 : s₂ ≥ 5
          · rw [if_pos k5]; norm_num
          · rw [if_neg k5]
            by_cases k3 : s₂ ≥ 3
            · rw [if_pos k3]; norm_num
            · rw [if_neg k3]

/-- C7: the cluster score equals the cluster-size mapping (noise 0.2,
≥10 → 1.0, ≥5 → 0.85, ≥3 → 0.7, else 0.5) applied to the candidate's
assigned label and cluster size; with fewer than 2 context reports the
score is neutral 0.5 for every possible clustering (clustering is not
consulted); the mapping is monotone non-decreasing across
noise/3/5/10+; and a non-noise cluster of size 7 scores 0.85. -/
theorem C7_cluster_score_mapping :
    ∀ (o : ClusterOracle) (report : CacheEntry) (rs : List CacheEntry),
      (rs.length < 2 → ∀ o₂ : ClusterOracle,
          getClusterScore o report rs = 1/2 ∧
          getClusterScore o report rs = getClusterScore o₂ report rs) ∧
      (2 ≤ rs.length → getClusterScore o report rs =
          clusterScoreMapping (candidateLabel o report rs)
            (candidateClusterSize o report rs)) ∧
      (∀ (l : ℤ) (s₁ s₂ : ℕ), l ≠ -1 →
          clusterScoreMapping (-1) s₁ ≤ clusterScoreMapping l s₁ ∧
          (s₁ ≤ s₂ → clusterScoreMapping l s₁ ≤ clusterScoreMapping l s₂)) ∧
      (∀ l : ℤ, l ≠ -1 → clusterScoreMapping l 7 = 17/20) := by
  intro o report rs
  refine ⟨?g1, ?g2, ?g3, ?g4⟩
  case g1 =>
    intro h o₂
    unfold getClusterScore
    rw [if_pos h, if_pos h]
    exact ⟨rfl, rfl⟩
  case g2 =>
    intro h
    exact getClusterScore_eq_mapping o report rs h
  case g3 =>
    intro l s₁ s₂ hl
    exact ⟨clusterScoreMapping_lb l s₁ hl, fun h12 => clusterScoreMapping_mono l hl h12⟩
  case g4 =>
    intro l hl
    unfold clusterScoreMapping
    rw [if_neg hl]
    norm_num

/-- C7 (witness): a single context report yields the neutral score 0.5;
with six context reports and a candidate joining them, a one-cluster
labelling assigns the candidate label 0 in a cluster of size 7, and the
mapping gives 0.85. -/
theorem C7_cluster_score_witness :
    (getClusterScore noiseOracle candSeven ctxOne = 1/2) ∧
    (getClusterScore oneClusterOracle candSeven ctxSix =
      clusterScoreMapping (candidateLabel oneClusterOracle candSeven ctxSix)
        (candidateClusterSize oneClusterOracle candSeven ctxSix)) ∧
    (candidateLabel oneClusterOracle candSeven ctxSix = 0) ∧
    (candidateClusterSize oneClusterOracle candSeven ctxSix = 7) ∧
    (clusterScoreMapping 0 7 = 17/20) := by
  refine ⟨?w1, ?w2, ?w3, ?w4, ?w5⟩
  case w1 =>
    exact ((C7_cluster_score_mapping noiseOracle candSeven ctxOne).1
      (by simp [ctxOne]) noiseOracle).1
  case w2 =>
    exact (C7_cluster_score_mapping oneClusterOracle candSeven ctxSix).2.1
      (by simp [ctxSix])
  case w3 =>
    simp [candidateLabel, ctxSix, candSeven, oneClusterOracle, fitPredict, minSamples,
      List.findIdx?]
  case w4 =>
    simp [candidateClusterSize, candidateLabels, candidateLabel, ctxSix, candSeven,
      oneClusterOracle, fitPredict, minSamples, List.findIdx?]
  case w5 =>
    exact (C7_cluster_score_mapping oneClusterOracle candSeven ctxSix).2.2.2 0 (by decide)

/-- C5 (counterexample): the claimed equivalence fails for the rounded
score the caller receives: when the aggregator output is 0.6996 (a
value the source sigmoid attains), the status is flagged while the
returned `final_score`, rounded to 3 decimals, is 0.7 ≥ 0.7. -/
theorem C5_rounded_score_counterexample :
    (validateReport (fun _ => 6996/10000) [] collabNeutral argsBase).result.status
      = "flagged" ∧
    7/10 ≤ (validateReport (fun _ => 6996/10000) [] collabNeutral argsBase).result.final_score ∧
    (∃ x : ℝ, sigmoid x = 6996/10000) := by
  refine ⟨?h1, ?h2, sigmoid_attains_6996⟩
  case h1 =>
    obtain ⟨l, hl⟩ :=
      validateReport_final_raw_boost (fun _ => 6996/10000) [] collabNeutral argsBase
    rw [validateReport_status, hl]
    norm_num [layer5Result, argsBase, collabNeutral, applyPhotoBoost, decideStatus]
  case h2 =>
    obtain ⟨l, hl⟩ :=
      validateReport_final_raw_boost (fun _ => 6996/10000) [] collabNeutral argsBase
    rw [validateReport_final_score, hl]
    norm_num [layer5Result, argsBase, collabNeutral, applyPhotoBoost, round3, round_eq]

/-- C5 (amended): the status is validated iff the pre-rounding final
score is ≥ 0.7 (the threshold is inclusive, so exactly 0.70 validates);
the returned `final_score` field is that value rounded to 3 decimals,
and whenever the status is validated the returned field is also
≥ 0.7 — but the converse for the rounded field fails on
[0.6995, 0.7). -/
theorem C5_threshold_inclusive_amended :
    ∀ (agg : List ℚ → ℚ) (cache : List CacheEntry) (c : Collaborators) (a : ValidateArgs),
      ((validateReport agg cache c a).result.status = "validated" ↔
        7/10 ≤ (validateReport agg cache c a).final_raw) ∧
      (validateReport agg cache c a).result.final_score =
        round3 (validateReport agg cache c a).final_raw ∧
      (7/10 ≤ (validateReport agg cache c a).final_raw →
        7/10 ≤ (validateReport agg cache c a).result.final_score) := by
  intro agg cache c a
  refine ⟨?_, validateReport_final_score agg cache c a, ?_⟩
  · rw [validateReport_status]
    exact decideStatus_eq_validated _
  · intro h
    rw [validateReport_final_score]
    have hmono := round3_mono h
    have h710 : round3 (7/10) = 7/10 := by norm_num [round3, round_eq]
    linarith

/-- C5 (witness): with an aggregator constantly 1 the final raw score of
a call is ≥ 0.7, so its status is validated and its returned score is
≥ 0.7. -/
theorem C5_threshold_inclusive_witness :
    (validateReport (fun _ => 1) [] collabNeutral argsBase).result.status = "validated" ∧
    7/10 ≤ (validateReport (fun _ => 1) [] collabNeutral argsBase).result.final_score := by
  have hraw : 7/10 ≤ (validateReport (fun _ => 1) [] collabNeutral argsBase).final_raw := by
    obtain ⟨l, hl⟩ := validateReport_final_raw_boost (fun _ => 1) [] collabNeutral argsBase
    rw [hl]
    norm_num [layer5Result, argsBase, collabNeutral, applyPhotoBoost]
  exact ⟨((C5_threshold_inclusive_amended (fun _ => 1) [] collabNeutral argsBase).1).mpr hraw,
    (C5_threshold_inclusive_amended (fun _ => 1) [] collabNeutral argsBase).2.2 hraw⟩

/-- C8: for any raw weight vector (the all-zero vector included) the
softmax weights sum to 1; `forward` always lies in [0,1]; and for any
aggregator with outputs in [0,1] (as `forward` is) the `final_score` of
every returned ValidationResult lies in [0,1]. -/
theorem C8_softmax_sum_and_bounds :
    ∀ (n : ℕ) (w : Fin n → ℝ) (b : ℝ) (layerScores : Fin n → ℝ),
      (0 < n → ∑ i, softmax w i = 1) ∧
      (0 ≤ forwardNet w b layerScores ∧ forwardNet w b layerScores ≤ 1) ∧
      (∀ (agg : List ℚ → ℚ) (cache : List CacheEntry) (c : Collaborators) (a : ValidateArgs),
          (∀ l : List ℚ, 0 ≤ agg l ∧ agg l ≤ 1) →
          0 ≤ (validateReport agg cache c a).result.final_score ∧
          (validateReport agg cache c a).result.final_score ≤ 1) := by
  intro n w b layerScores
  refine ⟨fun hn => softmax_sum hn w,
    ⟨le_of_lt (sigmoid_pos _), le_of_lt (sigmoid_lt_one _)⟩, ?_⟩
  intro agg cache c a hagg
  obtain ⟨l, hl⟩ := validateReport_final_raw_boost agg cache c a
  rw [validateReport_final_score, hl]
  obtain ⟨h0, h1⟩ := hagg l
  obtain ⟨hb0, hb1⟩ := applyPhotoBoost_mem01 _ _ h0 h1
  exact round3_mem01 hb0 hb1

/-- C8 (witness): for the all-zero 4-dimensional weight vector the
softmax weights sum to 1, and a call with an aggregator constantly 0.5
returns a final score within [0,1]. -/
theorem C8_softmax_sum_witness :
    (∑ i, softmax (fun _ : Fin 4 => (0:ℝ)) i = 1) ∧
    (0 ≤ (validateReport (fun _ => 1/2) [] collabNeutral argsBase).result.final_score ∧
      (validateReport (fun _ => 1/2) [] collabNeutral argsBase).result.final_score ≤ 1) :=
  ⟨(C8_softmax_sum_and_bounds 4 (fun _ => 0) 0 (fun _ => 0)).1 (by norm_num),
   (C8_softmax_sum_and_bounds 4 (fun _ => 0) 0 (fun _ => 0)).2.2
     (fun _ => 1/2) [] collabNeutral argsBase (fun l => by norm_num)⟩

/-- C10: the default-constructed 4-layer aggregator has uniform raw
weights 1/4 and zero bias, so `forward` is the sigmoid of the mean layer
score; on [0,1]-scores the output is at least 0.5 (all-zero scores give
exactly 0.5), and it reaches the 0.7 decision threshold iff the mean is
at least log(7/3). -/
theorem C10_default_aggregator_mean_sigmoid :
    ((mkNetwork 4 (1/100)).weights = List.replicate 4 (1/4)) ∧
    (∀ s : Fin 4 → ℝ, forwardNet (fun _ => (1/4:ℝ)) 0 s = sigmoid ((∑ i, s i) / 4)) ∧
    (∀ s : Fin 4 → ℝ, (∀ i, 0 ≤ s i ∧ s i ≤ 1) →
        1/2 ≤ forwardNet (fun _ => (1/4:ℝ)) 0 s) ∧
    (forwardNet (fun _ : Fin 4 => (1/4:ℝ)) 0 (fun _ => 0) = 1/2) ∧
    (∀ s : Fin 4 → ℝ, (∀ i, 0 ≤ s i ∧ s i ≤ 1) →
        (7/10 ≤ forwardNet (fun _ => (1/4:ℝ)) 0 s ↔ Real.log (7/3) ≤ (∑ i, s i) / 4)) := by
  have hmean : ∀ s : Fin 4 → ℝ,
      forwardNet (fun _ => (1/4:ℝ)) 0 s = sigmoid ((∑ i, s i) / 4) := by
    intro s
    unfold forwardNet
    congr 1
    rw [add_zero]
    have hsm : ∀ i : Fin 4, softmax (fun _ => (1/4:ℝ)) i = 1/4 := by
      intro i
      have h := softmax_const (n := 4) (by norm_num) (1/4 : ℝ) i
      norm_num at h
      exact h
    rw [Finset.sum_congr rfl (fun i _ => by rw [hsm i])]
    rw [← Finset.mul_sum]
    ring
  have hbounds : ∀ s : Fin 4 → ℝ, (∀ i, 0 ≤ s i ∧ s i ≤ 1) →
      0 ≤ (∑ i, s i) / 4 ∧ (∑ i, s i) / 4 ≤ 1 := by
    intro s hs
    have h0 : 0 ≤ ∑ i, s i := Finset.sum_nonneg (fun i _ => (hs i).1)
    have h1 : ∑ i, s i ≤ ∑ _i : Fin 4, (1:ℝ) :=
      Finset.sum_le_sum (fun i _ => (hs i).2)
    simp only [Finset.sum_const, Finset.card_univ, Fintype.card_fin, nsmul_eq_mul,
      mul_one] at h1
    push_cast at h1
    constructor
    · positivity
    · linarith
  refine ⟨by norm_num [mkNetwork], hmean, ?ge_half, ?at_zero, ?thr⟩
  case ge_half =>
    intro s hs
    obtain ⟨hm0, hm1⟩ := hbounds s hs
    rw [hmean s, sigmoid_of_mem (by linarith) (by linarith)]
    have hexp : Real.exp (-((∑ i, s i) / 4)) ≤ 1 := by
      rw [show (1:ℝ) = Real.exp 0 by rw [Real.exp_zero]]
      exact Real.exp_le_exp.mpr (by linarith)
    have hpos : (0:ℝ) < 1 + Real.exp (-((∑ i, s i) / 4)) := by positivity
    have := one_div_le_one_div_of_le hpos (by linarith :
      1 + Real.exp (-((∑ i, s i) / 4)) ≤ 2)
    linarith
  case at_zero =>
    rw [hmean (fun _ => 0)]
    simp only [Finset.sum_const, Finset.card_univ, Fintype.card_fin, smul_zero]
    rw [zero_div, sigmoid_zero]
  case thr =>
    intro s hs
    obtain ⟨hm0, hm1⟩ := hbounds s hs
    rw [hmean s, sigmoid_of_mem (by linarith) (by linarith)]
    have hpos : (0:ℝ) < 1 + Real.exp (-((∑ i, s i) / 4)) := by positivity
    have hlog37 : Real.log (3/7 : ℝ) = -Real.log (7/3) := by
      rw [show (3/7 : ℝ) = (7/3)⁻¹ by norm_num, Real.log_inv]
    constructor
    · intro h
      have h1 : (7/10 : ℝ) * (1 + Real.exp (-((∑ i, s i) / 4))) ≤ 1 :=
        (le_div_iff₀ hpos).mp h
      have he : Real.exp (-((∑ i, s i) / 4)) ≤ 3/7 := by linarith
      have h2 : -((∑ i, s i) / 4) ≤ Real.log (3/7) :=
        (Real.le_log_iff_exp_le (by norm_num)).mpr he
      rw [hlog37] at h2
      linarith
    · intro h
      have h2 : -((∑ i, s i) / 4) ≤ Real.log (3/7) := by
        rw [hlog37]
        linarith
      have he : Real.exp (-((∑ i, s i) / 4)) ≤ 3/7 :=
        (Real.le_log_iff_exp_le (by norm_num)).mp h2
      rw [le_div_iff₀ hpos]
      linarith

/-- C10 (witness): the all-zero score vector is in [0,1]^4; the default
aggregator gives it at least 0.5, and its threshold equivalence
instantiates to log(7/3) ≤ 0. -/
theorem C10_default_aggregator_witness :
    (1/2 ≤ forwardNet (fun _ : Fin 4 => (1/4:ℝ)) 0 (fun _ => 0)) ∧
    (7/10 ≤ forwardNet (fun _ : Fin 4 => (1/4:ℝ)) 0 (fun _ => 0) ↔
      Real.log (7/3) ≤ (∑ _i : Fin 4, (0:ℝ)) / 4) :=
  ⟨C10_default_aggregator_mean_sigmoid.2.2.1 (fun _ => 0) (fun i => by norm_num),
   C10_default_aggregator_mean_sigmoid.2.2.2.2 (fun _ => 0) (fun i => by norm_num)⟩
